import Mathlib

/-!
Verification development for the Instagram post scraping service in `src/main.py`.

The embedding models the pure data-flow of the service:
* Python string helpers (`lower`, `strip`, `replace`, `split`, `re.findall`)
  are translated to executable Lean functions on `String` / `List Char`
  (ASCII semantics, which is what the relevant inputs use);
* the browser is abstracted into page structures (`PostPage`, `ProfilePage`)
  whose fields carry exactly the texts/attributes the code reads from the DOM;
  a selenium exception while fetching a page is modelled as `Option.none`;
* Python dicts with string keys/values are modelled as association lists
  (`List (String × String)`) with Python assignment semantics (`setKey`).
-/

/-- Python whitespace class used by `str.strip()` (ASCII part). -/
def pyIsSpace (c : Char) : Bool :=
  c == ' ' || c == '\t' || c == '\n' || c == '\r' || c == '\x0b' || c == '\x0c'

/-- Python `str.lower()` (ASCII). -/
def pyLower (s : String) : String :=
  String.mk (s.toList.map Char.toLower)

/-- Python `str.strip()` with no argument: drop leading/trailing whitespace. -/
def pyStripWs (s : String) : String :=
  String.mk (((s.toList.dropWhile pyIsSpace).reverse.dropWhile pyIsSpace).reverse)

/-- Python `str.replace(c, "")`: remove every occurrence of the character `c`. -/
def pyRemoveChar (s : String) (c : Char) : String :=
  String.mk (s.toList.filter (fun x => x != c))

/-- Python `str.strip("/")`: drop leading/trailing slashes. -/
def pyStripSlash (s : String) : String :=
  String.mk (((s.toList.dropWhile (fun c => c == '/')).reverse.dropWhile (fun c => c == '/')).reverse)

/-- Whether `pat` is a prefix of `l` (plain Boolean recursion). -/
def listStartsWith : List Char → List Char → Bool
  | [], _ => true
  | _ :: _, [] => false
  | p :: ps, c :: cs => p == c && listStartsWith ps cs

/-- Whether `pat` occurs as a contiguous sublist of `l`; models Python `pat in s`. -/
def containsSubList (pat : List Char) : List Char → Bool
  | [] => listStartsWith pat []
  | c :: rest => listStartsWith pat (c :: rest) || containsSubList pat rest

/-- Python `pat in s` on strings. -/
def containsSub (pat s : String) : Bool :=
  containsSubList pat.toList s.toList

/-- The suffix of `l` after the first occurrence of `pat`; `none` when `pat` does not occur. -/
def afterFirstSub (pat : List Char) : List Char → Option (List Char)
  | [] => if listStartsWith pat [] then some [] else none
  | c :: rest =>
      if listStartsWith pat (c :: rest) then some (List.drop pat.length (c :: rest))
      else afterFirstSub pat rest

/-- The prefix of `l` before the next occurrence of `pat` (all of `l` when `pat` is absent). -/
def takeBeforeSub (pat : List Char) : List Char → List Char
  | [] => []
  | c :: rest =>
      if listStartsWith pat (c :: rest) then []
      else c :: takeBeforeSub pat rest

/-- Python `s.split(pat)[1]`: the segment between the first and second occurrence of `pat`
(`none` models the `IndexError` raised when `pat` does not occur in `s`). -/
def pySplitIdx1 (s pat : String) : Option String :=
  (afterFirstSub pat.toList s.toList).map (fun suf => String.mk (takeBeforeSub pat.toList suf))

/-- Python regex `\w` (ASCII): letters, digits and underscore. -/
def isWordChar (c : Char) : Bool :=
  c.isAlphanum || c == '_'

/-- One-pass scanner equivalent to `re.findall(r'#\w+', s)`: state `some acc` means we are
inside a candidate token whose word characters so far are `acc` (reversed); tokens need at
least one word character after the `#` and are emitted with their leading `#`. -/
def scanHashtags : Option (List Char) → List Char → List (List Char)
  | none, [] => []
  | some acc, [] => if acc.isEmpty then [] else [('#' :: acc.reverse)]
  | none, c :: rest =>
      if c == '#' then scanHashtags (some []) rest else scanHashtags none rest
  | some acc, c :: rest =>
      if isWordChar c then scanHashtags (some (c :: acc)) rest
      else if acc.isEmpty then
        (if c == '#' then scanHashtags (some []) rest else scanHashtags none rest)
      else
        ('#' :: acc.reverse) ::
          (if c == '#' then scanHashtags (some []) rest else scanHashtags none rest)

/-- `re.findall(r'#\w+', s)` from `scrape_single_post` (src/main.py line 420). -/
def extractHashtags (s : String) : List String :=
  (scanHashtags none s.toList).map String.mk

/-- A Python dict with string keys and values, in insertion order. -/
abbrev PostDict := List (String × String)

/-- Python dict assignment `d[k] = v`: replace the value at an existing key in place,
append at the end when the key is absent. -/
def setKey : PostDict → String → String → PostDict
  | [], k, v => [(k, v)]
  | (k2, v2) :: rest, k, v =>
      if k2 = k then (k2, v) :: rest else (k2, v2) :: setKey rest k v

/-- Python dict lookup `d[k]`, with `""` for an absent key (absent keys never arise here). -/
def getKey : PostDict → String → String
  | [], _ => ""
  | (k2, v2) :: rest, k => if k2 = k then v2 else getKey rest k

/-- Abstraction of the DOM state of one post page, carrying exactly the element texts and
attributes `scrape_single_post` reads. Elements a selector fails to find are simply absent;
`scrapedAt` models `datetime.utcnow().isoformat()`. -/
structure PostPage where
  captionTexts : List String
  likesTexts : List (List String)
  timestampDatetime : Option String
  timestampTitle : Option String
  hasVideoIndicator : Bool
  commentTexts : List String
  scrapedAt : String

/-- The initial `post_data` dict literal of `scrape_single_post` (src/main.py lines 390-402). -/
def initPost (url sc scrapedAt : String) : PostDict :=
  [("post_url", url), ("shortcode", sc), ("scraped_at", scrapedAt), ("title", ""),
   ("caption", ""), ("hashtags", ""), ("likes", "0"), ("comments_count", "0"),
   ("comments", ""), ("timestamp", ""), ("is_video", "False")]

/-- The shortcode expression of the `post_data` literal:
`post_url.split("/p/")[1].strip("/") if "/p/" in post_url else post_url.split("/reel/")[1].strip("/")`;
`none` models the uncaught `IndexError` when neither marker occurs. -/
def shortcodeOf (url : String) : Option String :=
  if containsSub "/p/" url then (pySplitIdx1 url "/p/").map pyStripSlash
  else (pySplitIdx1 url "/reel/").map pyStripSlash

/-- The caption selector loop (src/main.py lines 412-427): the first element text whose
stripped form is non-empty and longer than 10 characters wins. -/
def findCaption : List String → Option String
  | [] => none
  | t :: rest =>
      if pyStripWs t ≠ "" ∧ 10 < (pyStripWs t).length then some (pyStripWs t)
      else findCaption rest

/-- The body of the caption block: on a hit it sets `caption`, the hashtags joined with
`", "`, and the title truncated at 50 characters with an appended `"..."`. -/
def applyCaption (d : PostDict) (texts : List String) : PostDict :=
  match findCaption texts with
  | none => d
  | some s =>
      setKey
        (setKey (setKey d "caption" s) "hashtags"
          (String.intercalate ", " (extractHashtags s)))
        "title" (if 50 < s.length then s.take 50 ++ "..." else s)

/-- Python `likes_text.strip().replace(',', '').replace('.', '')`. -/
def cleanLikes (t : String) : String :=
  pyRemoveChar (pyRemoveChar (pyStripWs t) ',') '.'

/-- Python `str.isdigit()` (ASCII): non-empty and all digits. -/
def pyIsDigit (s : String) : Bool :=
  !(s == "") && s.toList.all Char.isDigit

/-- The inner element loop of the likes block: the first cleaned text that is all digits. -/
def firstDigitText : List String → Option String
  | [] => none
  | t :: rest =>
      if pyIsDigit (cleanLikes t) then some (cleanLikes t) else firstDigitText rest

/-- The likes selector loop (src/main.py lines 429-447): each selector may overwrite the
current value with its first digit text; the loop stops at the first non-`"0"` value. -/
def likesScan : List (List String) → String → String
  | [], cur => cur
  | sel :: rest, cur =>
      match firstDigitText sel with
      | some v => if v ≠ "0" then v else likesScan rest v
      | none => if cur ≠ "0" then cur else likesScan rest cur

/-- The timestamp block (src/main.py lines 449-458): prefer the `datetime` attribute,
fall back to the `title` attribute, else leave the default. -/
def applyTimestamp (d : PostDict) (pg : PostPage) : PostDict :=
  match pg.timestampDatetime with
  | some t => setKey d "timestamp" t
  | none =>
      match pg.timestampTitle with
      | some t => setKey d "timestamp" t
      | none => d

/-- The video check (src/main.py lines 460-475): `/reel/` URLs are videos, otherwise a
video indicator element on the page marks the post as video. -/
def applyIsVideo (d : PostDict) (url : String) (pg : PostPage) : PostDict :=
  if containsSub "/reel/" url then setKey d "is_video" "True"
  else if pg.hasVideoIndicator then setKey d "is_video" "True"
  else d

/-- The comment collection (src/main.py lines 477-490): first 5 comment elements,
stripped, kept when non-empty and longer than 5 characters. -/
def commentFilter (texts : List String) : List String :=
  ((texts.take 5).map pyStripWs).filter (fun t => decide (t ≠ "" ∧ 5 < t.length))

/-- The comments block: when any comment was kept, set the joined comments and their count. -/
def applyComments (d : PostDict) (pg : PostPage) : PostDict :=
  if commentFilter pg.commentTexts = [] then d
  else
    setKey
      (setKey d "comments" (String.intercalate " | " (commentFilter pg.commentTexts)))
      "comments_count" (toString (commentFilter pg.commentTexts).length)

/-- `scrape_single_post` (src/main.py lines 384-495): fetch the page (`none` models a
selenium exception, which leaves `post_data` unbound and propagates), build the initial
dict — whose shortcode expression can itself raise — then apply the extraction blocks. -/
def scrape_single_post (fetch : String → Option PostPage) (url : String) : Option PostDict :=
  match fetch url with
  | none => none
  | some pg =>
      match shortcodeOf url with
      | none => none
      | some sc =>
          some (applyComments
                  (applyIsVideo
                    (applyTimestamp
                      (setKey (applyCaption (initPost url sc pg.scrapedAt) pg.captionTexts)
                        "likes" (likesScan pg.likesTexts "0"))
                      pg)
                    url pg)
                  pg)

/-- An HTTP error response, modelling `fastapi.HTTPException(status_code, detail)`. -/
structure HTTPError where
  status : Nat
  detail : String
deriving DecidableEq

/-- Abstraction of the DOM state of a profile page: the raw page source, the post-link
hrefs the three selectors yield on each scroll iteration (flattened, in order), the hrefs
of the alternative `a`-tag method, and the per-post pages behind each href. -/
structure ProfilePage where
  pageSource : String
  found : Nat → List String
  altFound : List String
  fetch : String → Option PostPage

/-- The element loop inside one iteration of the URL collection loop
(src/main.py lines 317-331): add each href that looks like a post link and is not yet in
the set, stopping as soon as `max_posts` URLs have been collected. -/
def addHrefs (maxPosts : Nat) : List String → List String → List String
  | urls, [] => urls
  | urls, h :: rest =>
      if h ≠ "" ∧ (containsSub "/p/" h ∨ containsSub "/reel/" h) ∧ h ∉ urls then
        if maxPosts ≤ (urls ++ [h]).length then urls ++ [h]
        else addHrefs maxPosts (urls ++ [h]) rest
      else addHrefs maxPosts urls rest

/-- The scroll/collect `while` loop of `scrape_posts` (src/main.py lines 309-341):
`while len(post_urls) < max_posts and scroll_attempts < max_scroll_attempts (= 10)`, with
an early break once the count reaches `max_posts` and a scroll-attempt increment otherwise.
The insertion-ordered list models the Python set of URLs. -/
def collectLoop (found : Nat → List String) (maxPosts : Nat) (urls : List String)
    (attempts : Nat) : List String × Nat :=
  if h : urls.length < maxPosts ∧ attempts < 10 then
    if maxPosts ≤ (addHrefs maxPosts urls (found attempts)).length then
      (addHrefs maxPosts urls (found attempts), attempts)
    else collectLoop found maxPosts (addHrefs maxPosts urls (found attempts)) (attempts + 1)
  else (urls, attempts)
termination_by 10 - attempts
decreasing_by omega

/-- The alternative post-finding method (src/main.py lines 343-355): add every non-empty
href containing `/p/` that is not already present. -/
def addAlt (urls : List String) : List String → List String
  | [] => urls
  | h :: rest =>
      if h ≠ "" ∧ containsSub "/p/" h ∧ h ∉ urls then addAlt (urls ++ [h]) rest
      else addAlt urls rest

/-- The per-post loop of `scrape_posts` (src/main.py lines 364-376): a failing post is
caught and skipped (`continue`); successes are appended in order. -/
def scrapePostsLoop (fetch : String → Option PostPage) : List String → List PostDict
  | [] => []
  | url :: rest =>
      match scrape_single_post fetch url with
      | some d => d :: scrapePostsLoop fetch rest
      | none => scrapePostsLoop fetch rest

/-- `InstagramScraper.scrape_posts` (src/main.py lines 279-382): check the lowered page
source for the embedded error markers, collect post URLs (with the alternative fallback),
return `[]` when none were found, else scrape the first `max_posts` URLs. -/
def scrape_posts (page : ProfilePage) (username : String) (maxPosts : Nat) :
    Except HTTPError (List PostDict) :=
  if containsSub "sorry, this page isn\x27t available" (pyLower page.pageSource) then
    Except.error ⟨404, "User " ++ username ++ " not found"⟩
  else if containsSub "this account is private" (pyLower page.pageSource) then
    Except.error ⟨403, "User " ++ username ++ " has a private profile"⟩
  else if containsSub "user not found" (pyLower page.pageSource) then
    Except.error ⟨404, "User " ++ username ++ " not found"⟩
  else
    let collected := (collectLoop page.found maxPosts [] 0).1
    let postUrls := if collected = [] then addAlt collected page.altFound else collected
    if postUrls = [] then Except.ok []
    else Except.ok (scrapePostsLoop page.fetch (postUrls.take maxPosts))

/-- The username normalization of `scrape_posts_endpoint` (src/main.py line 536):
`payload.username.lower().strip().replace("@", "")`. -/
def pyNormalizeUser (s : String) : String :=
  pyRemoveChar (pyStripWs (pyLower s)) '@'

/-- `scrape_posts_endpoint` (src/main.py lines 533-581), generic over the scraping
transport `scrape` (which stands for `InstagramScraper().scrape_posts`; browser
construction, the optional login and CSV serialization are outside the pure data-flow):
reject an empty normalized username with a 400 error, propagate scraper errors, turn an
empty row set into a 404 error, and otherwise return the rows together with the username
used for the CSV filename. -/
def scrape_posts_endpoint_g (scrape : String → Nat → Except HTTPError (List PostDict))
    (payloadUsername : String) : Except HTTPError (List PostDict × String) :=
  if pyNormalizeUser payloadUsername = "" then
    Except.error ⟨400, "Username is required"⟩
  else
    match scrape (pyNormalizeUser payloadUsername) 20 with
    | Except.error e => Except.error e
    | Except.ok posts =>
        if posts = [] then
          Except.error ⟨404, "No posts found for user: " ++ pyNormalizeUser payloadUsername⟩
        else Except.ok (posts, pyNormalizeUser payloadUsername)

/-- `scrape_posts_endpoint` bound to the real scraper over a given profile page. -/
def scrape_posts_endpoint (page : ProfilePage) (payloadUsername : String) :
    Except HTTPError (List PostDict × String) :=
  scrape_posts_endpoint_g (scrape_posts page) payloadUsername

/-- A mock transport that records the identity it is invoked with by failing with it;
zero invocations show up as a result that does not mention the identity. -/
def probeScrape : String → Nat → Except HTTPError (List PostDict) :=
  fun u _ => Except.error ⟨500, u⟩

/-- Stated from the spec wording of the syntactic validity check (§4.1): 1-30 characters,
restricted to letters, digits, `.` and `_`, no consecutive `.`. This definition follows
the spec, to be compared with what the endpoint actually checks. -/
def igValidPattern (s : String) : Bool :=
  decide (1 ≤ s.toList.length) && decide (s.toList.length ≤ 30) &&
    s.toList.all (fun c => c.isAlphanum || c == '.' || c == '_') &&
    !(containsSubList ['.', '.'] s.toList)

/-- The CSV column set of the endpoint (src/main.py lines 566-569). -/
def fieldnames : List String :=
  ["post_url", "shortcode", "title", "caption", "hashtags",
   "likes", "comments_count", "comments", "timestamp", "is_video", "scraped_at"]

/-- The key set of the `post_data` dict, in insertion order. -/
def postKeys : List String :=
  ["post_url", "shortcode", "scraped_at", "title", "caption", "hashtags", "likes",
   "comments_count", "comments", "timestamp", "is_video"]

/-- Terminal outcome of the job poller. -/
inductive PollResult where
  | succeeded : PollResult
  | failed : String → PollResult
  | timedOut : PollResult
deriving DecidableEq

/-- Modelled from the spec: the Job Poller of §4.2 is implemented only by the
scraping-actor variants of this repository, which are not under `src/`; `src/main.py` is
the browser-automation variant. Following the spec algorithm: query status; a `succeeded`
status terminates with success, a `failed` status terminates with the provider message,
any other status (including unrecognized ones) counts as still running and the poller
sleeps and retries; when the deadline elapses before a terminal state it times out.
`fuel` is the number of status queries the deadline budget allows; the second component
of the result is the number of status queries issued. -/
def poll (status : Nat → String) : Nat → Nat → PollResult × Nat
  | 0, _ => (PollResult.timedOut, 0)
  | fuel + 1, q =>
      if status q = "succeeded" then (PollResult.succeeded, 1)
      else if status q = "failed" then (PollResult.failed (status q), 1)
      else ((poll status fuel (q + 1)).1, (poll status fuel (q + 1)).2 + 1)

/-- A provider status mock: `running` for the first two queries, then `succeeded`. -/
def statusEx (i : Nat) : String :=
  if i < 2 then "running" else "succeeded"

/-- A concrete post page used as a witness input. -/
def examplePage : PostPage :=
  { captionTexts := ["Hello #sun #beach"]
    likesTexts := []
    timestampDatetime := none
    timestampTitle := none
    hasVideoIndicator := false
    commentTexts := []
    scrapedAt := "2024-01-01T00:00:00" }

/-- A fetcher that serves `examplePage` for every URL. -/
def fetchEx : String → Option PostPage :=
  fun _ => some examplePage

/-- A concrete post URL used as a witness input. -/
def urlEx : String := "https://www.instagram.com/p/ABC/"

/-- The record produced for `urlEx` from `examplePage`. -/
def dEx : PostDict := (scrape_single_post fetchEx urlEx).getD []

/-- A profile page with no posts, no markers and no reachable post pages. -/
def emptyPage : ProfilePage :=
  { pageSource := ""
    found := fun _ => []
    altFound := []
    fetch := fun _ => none }

/-! ### Helper lemmas about the dict operations -/

/-- Writing a key and reading it back yields the written value. -/
theorem getKey_setKey_self (d : PostDict) (k v : String) :
    getKey (setKey d k v) k = v := by
  induction d with
  | nil => simp [setKey, getKey]
  | cons p rest ih =>
      obtain ⟨k2, v2⟩ := p
      by_cases hk : k2 = k <;> simp [setKey, getKey, hk, ih]

/-- Writing one key leaves every other key unchanged. -/
theorem getKey_setKey_ne (d : PostDict) (k k2 v : String) (h : k2 ≠ k) :
    getKey (setKey d k v) k2 = getKey d k2 := by
  induction d with
  | nil => simp [setKey, getKey, Ne.symm h]
  | cons p rest ih =>
      obtain ⟨k3, v3⟩ := p
      by_cases hk : k3 = k
      · subst hk
        simp [setKey, getKey, Ne.symm h]
      · simp [setKey, getKey, hk, ih]

/-- Writing an existing key preserves the key sequence of the dict. -/
theorem map_fst_setKey_mem (d : PostDict) (k v : String) (h : k ∈ d.map Prod.fst) :
    (setKey d k v).map Prod.fst = d.map Prod.fst := by
  induction d with
  | nil => simp at h
  | cons p rest ih =>
      obtain ⟨k2, v2⟩ := p
      by_cases hk : k2 = k
      · simp [setKey, hk]
      · have hmem : k ∈ rest.map Prod.fst := by
          simp only [List.map_cons, List.mem_cons] at h
          rcases h with h | h
          · exact absurd h.symm hk
          · exact h
        simp [setKey, hk, ih hmem]

/-- Writing a key of the fixed schema preserves the schema key sequence. -/
theorem map_fst_setKey_post (d : PostDict) (k v : String) (h : d.map Prod.fst = postKeys)
    (hk : k ∈ postKeys) : (setKey d k v).map Prod.fst = postKeys := by
  rw [map_fst_setKey_mem d k v (by rw [h]; exact hk)]
  exact h

/-! ### The extraction blocks preserve the key schema -/

theorem map_fst_applyCaption (d : PostDict) (texts : List String)
    (h : d.map Prod.fst = postKeys) : (applyCaption d texts).map Prod.fst = postKeys := by
  unfold applyCaption
  cases findCaption texts with
  | none => exact h
  | some s =>
      exact map_fst_setKey_post _ _ _
        (map_fst_setKey_post _ _ _
          (map_fst_setKey_post _ _ _ h (by decide)) (by decide)) (by decide)

theorem map_fst_applyTimestamp (d : PostDict) (pg : PostPage)
    (h : d.map Prod.fst = postKeys) : (applyTimestamp d pg).map Prod.fst = postKeys := by
  unfold applyTimestamp
  cases pg.timestampDatetime with
  | some t => exact map_fst_setKey_post _ _ _ h (by decide)
  | none =>
      cases pg.timestampTitle with
      | some t => exact map_fst_setKey_post _ _ _ h (by decide)
      | none => exact h

theorem map_fst_applyIsVideo (d : PostDict) (url : String) (pg : PostPage)
    (h : d.map Prod.fst = postKeys) : (applyIsVideo d url pg).map Prod.fst = postKeys := by
  unfold applyIsVideo
  split
  · exact map_fst_setKey_post _ _ _ h (by decide)
  · split
    · exact map_fst_setKey_post _ _ _ h (by decide)
    · exact h

theorem map_fst_applyComments (d : PostDict) (pg : PostPage)
    (h : d.map Prod.fst = postKeys) : (applyComments d pg).map Prod.fst = postKeys := by
  unfold applyComments
  split
  · exact h
  · exact map_fst_setKey_post _ _ _
      (map_fst_setKey_post _ _ _ h (by decide)) (by decide)

/-- Every record `scrape_single_post` produces carries exactly the fixed key schema. -/
theorem map_fst_scrape_single_post (fetch : String → Option PostPage) (url : String)
    (d : PostDict) (h : scrape_single_post fetch url = some d) :
    d.map Prod.fst = postKeys := by
  unfold scrape_single_post at h
  cases hf : fetch url with
  | none => rw [hf] at h; exact Option.noConfusion h
  | some pg =>
      rw [hf] at h
      cases hs : shortcodeOf url with
      | none => rw [hs] at h; exact Option.noConfusion h
      | some sc =>
          rw [hs] at h
          injection h with h
          subst h
          exact map_fst_applyComments _ _
            (map_fst_applyIsVideo _ _ _
              (map_fst_applyTimestamp _ _
                (map_fst_setKey_post _ _ _ (map_fst_applyCaption _ _ rfl) (by decide))))

/-! ### Reading caption-block keys through the later extraction blocks -/

theorem getKey_applyTimestamp (d : PostDict) (pg : PostPage) (k : String)
    (h : k ≠ "timestamp") : getKey (applyTimestamp d pg) k = getKey d k := by
  unfold applyTimestamp
  cases pg.timestampDatetime with
  | some t => exact getKey_setKey_ne _ _ _ _ h
  | none =>
      cases pg.timestampTitle with
      | some t => exact getKey_setKey_ne _ _ _ _ h
      | none => rfl

theorem getKey_applyIsVideo (d : PostDict) (url : String) (pg : PostPage) (k : String)
    (h : k ≠ "is_video") : getKey (applyIsVideo d url pg) k = getKey d k := by
  unfold applyIsVideo
  split
  · exact getKey_setKey_ne _ _ _ _ h
  · split
    · exact getKey_setKey_ne _ _ _ _ h
    · rfl

theorem getKey_applyComments (d : PostDict) (pg : PostPage) (k : String)
    (h1 : k ≠ "comments") (h2 : k ≠ "comments_count") :
    getKey (applyComments d pg) k = getKey d k := by
  unfold applyComments
  split
  · rfl
  · rw [getKey_setKey_ne _ _ _ _ h2, getKey_setKey_ne _ _ _ _ h1]

/-- Reading a caption-block key through the likes, timestamp, video and comment blocks
reduces to reading it right after the caption block. -/
theorem getKey_outer (pg : PostPage) (url sc : String) (k : String)
    (h1 : k ≠ "comments") (h2 : k ≠ "comments_count") (h3 : k ≠ "is_video")
    (h4 : k ≠ "timestamp") (h5 : k ≠ "likes") :
    getKey (applyComments (applyIsVideo (applyTimestamp
        (setKey (applyCaption (initPost url sc pg.scrapedAt) pg.captionTexts)
          "likes" (likesScan pg.likesTexts "0")) pg) url pg) pg) k
      = getKey (applyCaption (initPost url sc pg.scrapedAt) pg.captionTexts) k := by
  rw [getKey_applyComments _ _ _ h1 h2, getKey_applyIsVideo _ _ _ _ h3,
    getKey_applyTimestamp _ _ _ h4, getKey_setKey_ne _ _ _ _ h5]

/-! ### Helper lemmas for the collection loop and the per-post loop -/

/-- When no iteration finds any element, the collection loop keeps scrolling until the
attempt counter reaches 10. -/
theorem collectLoop_no_new (found : Nat → List String) (n : Nat)
    (hf : ∀ i, found i = []) :
    ∀ k a u, a + k = 10 → u.length < n → collectLoop found n u a = (u, 10) := by
  intro k
  induction k with
  | zero =>
      intro a u ha hu
      have ha10 : a = 10 := by omega
      subst ha10
      unfold collectLoop
      rw [dif_neg (by omega)]
  | succ k ih =>
      intro a u ha hu
      unfold collectLoop
      rw [dif_pos ⟨hu, by omega⟩, hf a]
      have hadd : addHrefs n u [] = u := rfl
      rw [hadd, if_neg (by omega), ih (a + 1) u (by omega) hu]

/-- The collection loop exits with at most 10 scroll attempts, and only once the attempt
counter has reached 10 or the URL count has reached the requested post count. -/
theorem collectLoop_exit (found : Nat → List String) (n : Nat) :
    ∀ k a u, a + k = 10 →
      (collectLoop found n u a).2 ≤ 10 ∧
      (10 ≤ (collectLoop found n u a).2 ∨ n ≤ (collectLoop found n u a).1.length) := by
  intro k
  induction k with
  | zero =>
      intro a u ha
      have ha10 : a = 10 := by omega
      subst ha10
      unfold collectLoop
      rw [dif_neg (by omega)]
      exact ⟨Nat.le_refl 10, Or.inl (Nat.le_refl 10)⟩
  | succ k ih =>
      intro a u ha
      unfold collectLoop
      by_cases hc : u.length < n ∧ a < 10
      · rw [dif_pos hc]
        by_cases hb : n ≤ (addHrefs n u (found a)).length
        · rw [if_pos hb]
          exact ⟨by omega, Or.inr hb⟩
        · rw [if_neg hb]
          exact ih (a + 1) _ (by omega)
      · rw [dif_neg hc]
        have hlen : ¬ u.length < n := fun hlt => hc ⟨hlt, by omega⟩
        constructor
        · show a ≤ 10
          omega
        · exact Or.inr (show n ≤ u.length by omega)

/-- The per-post loop is the `filterMap` of the single-post scraper. -/
theorem scrapePostsLoop_eq_filterMap (fetch : String → Option PostPage) (urls : List String) :
    scrapePostsLoop fetch urls = urls.filterMap (scrape_single_post fetch) := by
  induction urls with
  | nil => rfl
  | cons u rest ih =>
      cases hc : scrape_single_post fetch u <;>
        simp [scrapePostsLoop, hc, ih, List.filterMap_cons]

/-- Every record of the per-post loop comes from some URL. -/
theorem mem_scrapePostsLoop (fetch : String → Option PostPage) (urls : List String)
    (d : PostDict) (hd : d ∈ scrapePostsLoop fetch urls) :
    ∃ u, scrape_single_post fetch u = some d := by
  induction urls with
  | nil => simp [scrapePostsLoop] at hd
  | cons u rest ih =>
      unfold scrapePostsLoop at hd
      cases hc : scrape_single_post fetch u with
      | none => rw [hc] at hd; exact ih hd
      | some d2 =>
          rw [hc] at hd
          rcases List.mem_cons.mp hd with h | h
          · exact ⟨u, h ▸ hc⟩
          · exact ih h

/-! ### Helper lemma for the poller -/

/-- Polling from query index `q`: `N` non-terminal statuses followed by `succeeded`
yield success after exactly `N + 1` queries, given enough deadline budget. -/
theorem poll_run_then_succeed (status : Nat → String) :
    ∀ N q fuel, (∀ i, i < N → status (q + i) = "running") →
      status (q + N) = "succeeded" → N < fuel →
      poll status fuel q = (PollResult.succeeded, N + 1) := by
  intro N
  induction N with
  | zero =>
      intro q fuel _ hs hf
      cases fuel with
      | zero => omega
      | succ f =>
          have h0 : status q = "succeeded" := by simpa using hs
          unfold poll
          rw [h0, if_pos rfl]
  | succ N ih =>
      intro q fuel hr hs hf
      cases fuel with
      | zero => omega
      | succ f =>
          have h0 : status q = "running" := by
            have := hr 0 (Nat.succ_pos N)
            simpa using this
          have hrec : poll status f (q + 1) = (PollResult.succeeded, N + 1) := by
            refine ih (q + 1) f (fun i hi => ?_) ?_ (by omega)
            · have h1 := hr (i + 1) (by omega)
              have e : q + (i + 1) = q + 1 + i := by omega
              rw [e] at h1
              exact h1
            · have e : q + (N + 1) = q + 1 + N := by omega
              rw [e] at hs
              exact hs
          unfold poll
          rw [h0, if_neg (by decide), if_neg (by decide), hrec]

/-! ### Claim theorems -/

/-- C1 counterexample: the identity `"ab..cd"` fails the syntactic validity pattern
(consecutive dots), yet the endpoint does not reject it before the transport: invoking
the endpoint with a mock transport yields the transport's own result, carrying the
identity it was called with — a network call is issued and no `InvalidIdentity`
rejection happens. -/
theorem c1_counterexample :
    igValidPattern "ab..cd" = false ∧
    scrape_posts_endpoint_g probeScrape "ab..cd" = Except.error ⟨500, "ab..cd"⟩ :=
  ⟨by decide, rfl⟩

/-- C1 (amended): the endpoint performs no syntactic pattern validation; every identity
whose normalized form is non-empty — including every pattern-invalid one — is passed to
the scraping transport (here a mock transport that records the identity it was invoked
with). The only pre-scrape rejection is the 400 error for an empty normalized username. -/
theorem c1_endpoint_no_pattern_check (p : String)
    (_h1 : igValidPattern p = false) (h2 : pyNormalizeUser p ≠ "") :
    scrape_posts_endpoint_g probeScrape p = Except.error ⟨500, pyNormalizeUser p⟩ := by
  unfold scrape_posts_endpoint_g
  rw [if_neg h2]
  rfl

/-- C1 witness: the amended theorem at the concrete pattern-invalid identity
`"bad..name"`. -/
theorem c1_witness :
    scrape_posts_endpoint_g probeScrape "bad..name" =
      Except.error ⟨500, pyNormalizeUser "bad..name"⟩ :=
  c1_endpoint_no_pattern_check "bad..name" (by decide) (by decide)

/-- C9: the endpoint normalizes the supplied username by lowercasing, stripping
surrounding whitespace and removing every `@` (`pyNormalizeUser`, src/main.py line 536).
When the normalized form is empty the request is rejected with a 400 error and the
scraping transport is never consulted (the probe transport would otherwise surface the
identity in a 500 error); when it is non-empty, the identity handed to the transport is
exactly the normalized form. -/
theorem c9_username_normalization (p : String) :
    scrape_posts_endpoint_g probeScrape p =
      (if pyNormalizeUser p = "" then Except.error ⟨400, "Username is required"⟩
       else Except.error ⟨500, pyNormalizeUser p⟩) := by
  unfold scrape_posts_endpoint_g
  by_cases h : pyNormalizeUser p = ""
  · rw [if_pos h, if_pos h]
  · rw [if_neg h, if_neg h]
    rfl

/-- C3 counterexample: for the caption `"Hello #sun #beach"` with no structured hashtag
data on the page, the record's hashtags are the tokens with their leading `#` retained,
joined into the string `"#sun, #beach"` — not the sequence `["sun", "beach"]` the claim
states. -/
theorem c3_counterexample :
    (scrape_single_post fetchEx urlEx).map (fun d => getKey d "hashtags") =
        some "#sun, #beach" ∧
    extractHashtags "Hello #sun #beach" = ["#sun", "#beach"] ∧
    ["#sun", "#beach"] ≠ ["sun", "beach"] :=
  ⟨rfl, by decide, by decide⟩

/-- C3 (amended): there is no provider-supplied structured hashtag list in this variant;
whenever a caption is found on the post page, the record's `hashtags` field is the list
of caption tokens matching `#` followed by one or more word characters — each token
retaining its leading `#` — joined with `", "`. -/
theorem c3_hashtags_from_caption (fetch : String → Option PostPage) (url : String)
    (pg : PostPage) (d : PostDict) (s : String)
    (hf : fetch url = some pg) (hd : scrape_single_post fetch url = some d)
    (hc : findCaption pg.captionTexts = some s) :
    getKey d "hashtags" = String.intercalate ", " (extractHashtags s) := by
  unfold scrape_single_post at hd
  rw [hf] at hd
  cases hs : shortcodeOf url with
  | none => rw [hs] at hd; exact Option.noConfusion hd
  | some sc =>
      rw [hs] at hd
      injection hd with hd
      subst hd
      rw [getKey_outer pg url sc "hashtags" (by decide) (by decide) (by decide)
        (by decide) (by decide)]
      unfold applyCaption
      rw [hc, getKey_setKey_ne _ _ _ _ (by decide), getKey_setKey_self]

/-- C3 witness: the amended theorem at the concrete example page, whose caption is
`"Hello #sun #beach"`. -/
theorem c3_witness :
    getKey dEx "hashtags" = String.intercalate ", " (extractHashtags "Hello #sun #beach") :=
  c3_hashtags_from_caption fetchEx urlEx examplePage dEx "Hello #sun #beach" rfl rfl rfl

/-- C4: no record carries a provider-supplied title in this variant (the `title` default
is `""` and it is only ever written from the caption); for every record whose caption is
non-empty, the title equals the caption when the caption has at most 50 characters, and
the first 50 characters followed by the ellipsis marker `"..."` otherwise. -/
theorem c4_title_truncation (fetch : String → Option PostPage) (url : String) (d : PostDict)
    (h : scrape_single_post fetch url = some d) (hc : getKey d "caption" ≠ "") :
    getKey d "title" =
      (if (getKey d "caption").length ≤ 50 then getKey d "caption"
       else (getKey d "caption").take 50 ++ "...") := by
  unfold scrape_single_post at h
  cases hf : fetch url with
  | none => rw [hf] at h; exact Option.noConfusion h
  | some pg =>
      rw [hf] at h
      cases hs : shortcodeOf url with
      | none => rw [hs] at h; exact Option.noConfusion h
      | some sc =>
          rw [hs] at h
          injection h with h
          subst h
          rw [getKey_outer pg url sc "caption" (by decide) (by decide) (by decide)
            (by decide) (by decide)] at hc ⊢
          rw [getKey_outer pg url sc "title" (by decide) (by decide) (by decide)
            (by decide) (by decide)]
          cases hcap : findCaption pg.captionTexts with
          | none =>
              unfold applyCaption at hc
              rw [hcap] at hc
              exact absurd rfl hc
          | some s =>
              unfold applyCaption at hc ⊢
              rw [hcap] at hc ⊢
              rw [getKey_setKey_ne _ _ _ _ (by decide), getKey_setKey_ne _ _ _ _ (by decide),
                getKey_setKey_self] at hc
              rw [getKey_setKey_self,
                getKey_setKey_ne _ _ _ _ (by decide), getKey_setKey_ne _ _ _ _ (by decide),
                getKey_setKey_self]
              by_cases h50 : 50 < s.length
              · rw [if_pos h50, if_neg (by omega)]
              · rw [if_neg h50, if_pos (by omega)]

/-- C4 witness: the theorem at the concrete example record, whose caption
`"Hello #sun #beach"` is non-empty and at most 50 characters long. -/
theorem c4_witness :
    getKey dEx "title" =
      (if (getKey dEx "caption").length ≤ 50 then getKey dEx "caption"
       else (getKey dEx "caption").take 50 ++ "...") :=
  c4_title_truncation fetchEx urlEx dEx rfl (by decide)

/-- C2: every record is born as the full fixed dict literal, whose fields all carry
defined defaults, and later blocks only overwrite existing keys; so scraping N valid
post URLs yields N records, each containing every CSV column key — no key is ever
missing, regardless of which page elements were absent. -/
theorem c2_fixed_schema (fetch : String → Option PostPage) (urls : List String)
    (h : ∀ u ∈ urls, (scrape_single_post fetch u).isSome = true) :
    (scrapePostsLoop fetch urls).length = urls.length ∧
    ∀ d ∈ scrapePostsLoop fetch urls, ∀ k ∈ fieldnames, k ∈ d.map Prod.fst := by
  constructor
  · induction urls with
    | nil => rfl
    | cons u rest ih =>
        have hu := h u (by simp)
        cases hcase : scrape_single_post fetch u with
        | none => rw [hcase] at hu; simp at hu
        | some d =>
            show (scrapePostsLoop fetch (u :: rest)).length = rest.length + 1
            unfold scrapePostsLoop
            rw [hcase]
            simp only [List.length_cons]
            rw [ih (fun v hv => h v (by simp [hv]))]
  · intro d hd k hk
    obtain ⟨u, hu⟩ := mem_scrapePostsLoop fetch urls d hd
    rw [map_fst_scrape_single_post fetch u d hu]
    have hsub : ∀ k2 ∈ fieldnames, k2 ∈ postKeys := by decide
    exact hsub k hk

/-- C2 witness: the theorem at a single valid post URL served by the example page. -/
theorem c2_witness :
    (scrapePostsLoop fetchEx [urlEx]).length = [urlEx].length ∧
    ∀ d ∈ scrapePostsLoop fetchEx [urlEx], ∀ k ∈ fieldnames, k ∈ d.map Prod.fst :=
  c2_fixed_schema fetchEx [urlEx] (by decide)

/-- C5: when the lowered page source carries one of the embedded error markers (page
unavailable, private account, user not found), `scrape_posts` terminates with the
corresponding domain-specific 404/403 error and produces no data row — for every
collection behaviour and every per-post fetcher, i.e. before any per-record processing
can influence the outcome. -/
theorem c5_account_unavailable (src : String) (found : Nat → List String)
    (alt : List String) (fetch : String → Option PostPage) (u : String) (n : Nat)
    (h : containsSub "sorry, this page isn\x27t available" (pyLower src) = true ∨
         containsSub "this account is private" (pyLower src) = true ∨
         containsSub "user not found" (pyLower src) = true) :
    ∃ st dt, scrape_posts ⟨src, found, alt, fetch⟩ u n = Except.error ⟨st, dt⟩ ∧
      (st = 404 ∨ st = 403) := by
  rcases h with h1 | h2 | h3
  · exact ⟨404, "User " ++ u ++ " not found", by simp [scrape_posts, h1], Or.inl rfl⟩
  · by_cases h1 : containsSub "sorry, this page isn\x27t available" (pyLower src) = true
    · exact ⟨404, "User " ++ u ++ " not found", by simp [scrape_posts, h1], Or.inl rfl⟩
    · exact ⟨403, "User " ++ u ++ " has a private profile",
        by simp [scrape_posts, h1, h2], Or.inr rfl⟩
  · by_cases h1 : containsSub "sorry, this page isn\x27t available" (pyLower src) = true
    · exact ⟨404, "User " ++ u ++ " not found", by simp [scrape_posts, h1], Or.inl rfl⟩
    · by_cases h2 : containsSub "this account is private" (pyLower src) = true
      · exact ⟨403, "User " ++ u ++ " has a private profile",
          by simp [scrape_posts, h1, h2], Or.inr rfl⟩
      · exact ⟨404, "User " ++ u ++ " not found",
          by simp [scrape_posts, h1, h2, h3], Or.inl rfl⟩

/-- C5 witness: the theorem at a concrete page source containing the private-account
marker, with arbitrary fixed collection and fetch behaviour. -/
theorem c5_witness :
    ∃ st dt, scrape_posts ⟨"This Account is Private", fun _ => [], [], fun _ => none⟩
        "bob" 20 = Except.error ⟨st, dt⟩ ∧ (st = 404 ∨ st = 403) :=
  c5_account_unavailable "This Account is Private" (fun _ => []) [] (fun _ => none)
    "bob" 20 (by decide)

/-- C6: when the scrape succeeds but yields zero records, the endpoint fails with the
404 "no posts found" error naming the normalized username, rather than returning an
empty row set. -/
theorem c6_empty_result (page : ProfilePage) (p : String)
    (h1 : pyNormalizeUser p ≠ "")
    (h2 : scrape_posts page (pyNormalizeUser p) 20 = Except.ok []) :
    scrape_posts_endpoint page p =
      Except.error ⟨404, "No posts found for user: " ++ pyNormalizeUser p⟩ := by
  unfold scrape_posts_endpoint scrape_posts_endpoint_g
  rw [if_neg h1, h2]
  rfl

/-- C6 witness: the theorem at the empty profile page and username `"alice"`; the
zero-record hypothesis is discharged by running the collection loop to exhaustion. -/
theorem c6_witness :
    scrape_posts_endpoint emptyPage "alice" =
      Except.error ⟨404, "No posts found for user: " ++ pyNormalizeUser "alice"⟩ := by
  have hc : collectLoop emptyPage.found 20 [] 0 = ([], 10) :=
    collectLoop_no_new emptyPage.found 20 (fun _ => rfl) 10 0 [] rfl (by decide)
  have h2 : scrape_posts emptyPage (pyNormalizeUser "alice") 20 = Except.ok [] := by
    unfold scrape_posts
    rw [hc]
    rfl
  exact c6_empty_result emptyPage "alice" (by decide) h2

/-- C7: a failure while scraping one individual post URL is skipped and is not fatal:
the loop output over any URL list containing a failing URL is exactly the concatenation
of the outputs over the URLs before and after it, so the remaining records are still
processed and contribute. -/
theorem c7_record_failure_skipped (fetch : String → Option PostPage)
    (xs ys : List String) (bad : String)
    (h : scrape_single_post fetch bad = none) :
    scrapePostsLoop fetch (xs ++ bad :: ys) =
      scrapePostsLoop fetch xs ++ scrapePostsLoop fetch ys := by
  rw [scrapePostsLoop_eq_filterMap, scrapePostsLoop_eq_filterMap,
    scrapePostsLoop_eq_filterMap, List.filterMap_append]
  rw [List.filterMap_cons_none h]

/-- C7 witness: the theorem with a valid post URL followed by a URL the single-post
scraper fails on (no post marker, so its shortcode expression raises). -/
theorem c7_witness :
    scrapePostsLoop fetchEx ([urlEx] ++ "https://example.com/profile" :: []) =
      scrapePostsLoop fetchEx [urlEx] ++ scrapePostsLoop fetchEx [] :=
  c7_record_failure_skipped fetchEx [urlEx] [] "https://example.com/profile" rfl

/-- C8: for every N, a provider that reports a non-terminal status for the first N
status queries and `succeeded` on the next makes the poller issue exactly N + 1 status
queries and return `Succeeded`, for any deadline budget of more than N queries. -/
theorem c8_poller_query_count (status : Nat → String) (N fuel : Nat)
    (hr : ∀ i, i < N → status i = "running")
    (hs : status N = "succeeded") (hf : N < fuel) :
    poll status fuel 0 = (PollResult.succeeded, N + 1) :=
  poll_run_then_succeed status N 0 fuel
    (fun i hi => by simpa using hr i hi) (by simpa using hs) hf

/-- C8 witness: the theorem at N = 2 with the concrete status mock. -/
theorem c8_witness : poll statusEx 10 0 = (PollResult.succeeded, 3) :=
  c8_poller_query_count statusEx 2 10 (by decide) (by decide) (by decide)

/-- C10: the post-URL collection loop of `scrape_posts`, started as in the source with
no URLs and zero scroll attempts, terminates (it is a total function of its page inputs)
with at most 10 scroll attempts, and its exit is due to the attempt counter having
reached 10 (`max_scroll_attempts`) or the collected URL count having reached
`max_posts`, whichever comes first. -/
theorem c10_collection_loop_exit (found : Nat → List String) (maxPosts : Nat) :
    (collectLoop found maxPosts [] 0).2 ≤ 10 ∧
    (10 ≤ (collectLoop found maxPosts [] 0).2 ∨
      maxPosts ≤ (collectLoop found maxPosts [] 0).1.length) :=
  collectLoop_exit found maxPosts 10 0 [] rfl
